import Mathlib

/-!
Verification of the WaveRider 3-Stop trade-risk calculation engine.

Shallow embedding of the V2 calculation engine (`calculations_v2.py` and the
transaction/trade API around it), translated from the code excerpts quoted in
`REQUIREMENTS_VERIFICATION.md`, `IMPLEMENTATION_SUMMARY.md`, `SCHEMA.md`,
`MIGRATION_TO_V2.md`, `AUTO_REFRESH_IMPLEMENTATION.md` and the v2 schema
document.  Monetary amounts and prices (Python `Decimal`) are modelled as `Rat`;
share counts (SQL `INTEGER`) as `Int`; nullable columns / Python `None` as
`Option`.  Dates are modelled as day numbers (`Nat`) with day `0` a Monday, so
`d % 7 ∈ {5, 6}` is a weekend.
-/

/-- Lifecycle status of a trade: the `status` column, values
`OPEN` / `PARTIAL` / `CLOSED` in the code. -/
inductive TradeStatus where
  | OPEN
  | PARTIAL
  | CLOSED
deriving DecidableEq, Repr

/-- Input shape of `TransactionCreate` (exit date, action tag, notes and the
ticker play no role in any computation and are omitted): shares, price, and the
optional fee. -/
structure TransactionInput where
  shares : Int
  price : Rat
  fees : Option Rat
deriving DecidableEq, Repr

/-- A stored `transactions` row: `fees` is filled with `0` when absent and
`proceeds` is computed at creation. -/
structure Transaction where
  shares : Int
  price : Rat
  fees : Rat
  proceeds : Rat
deriving DecidableEq, Repr

/-- `calculate_transaction_proceeds`: `proceeds = (shares * price) - fees`. -/
def calculate_transaction_proceeds (shares : Int) (price fees : Rat) : Rat :=
  (shares : Rat) * price - fees

/-- `create_transaction` (transactions_v2.py): stores
`fees = transaction_data.fees or Decimal("0")` (Python `or`: `None` and `0`
both give `0`) and `proceeds` from `calculate_transaction_proceeds`. -/
def create_transaction (d : TransactionInput) : Transaction :=
  let f := match d.fees with
    | some x => if x = 0 then (0 : Rat) else x
    | none => 0
  { shares := d.shares
    price := d.price
    fees := f
    proceeds := calculate_transaction_proceeds d.shares d.price f }

/-- `shares_exited = SUM(transactions.shares WHERE trade_id = X)`. -/
def shares_exited (txns : List Transaction) : Int :=
  (txns.map (fun t => t.shares)).sum

/-- `total_proceeds = SUM(transactions.proceeds WHERE trade_id = X)`. -/
def total_proceeds (txns : List Transaction) : Rat :=
  (txns.map (fun t => t.proceeds)).sum

/-- `total_fees = SUM(transactions.fees WHERE trade_id = X)`. -/
def total_fees (txns : List Transaction) : Rat :=
  (txns.map (fun t => t.fees)).sum

/-- `avg_exit_price = SUM(shares * price) / shares_exited if shares_exited > 0
else None` (weighted average exit price). -/
def avg_exit_price (txns : List Transaction) : Option Rat :=
  let ex := shares_exited txns
  if 0 < ex then
    some ((txns.map (fun t => (t.shares : Rat) * t.price)).sum / (ex : Rat))
  else none

/-- `calculate_status`:
`if shares_remaining == shares: OPEN elif shares_remaining == 0: CLOSED
else: PARTIAL`. -/
def calculate_status (shares shares_remaining : Int) : TradeStatus :=
  if shares_remaining = shares then .OPEN
  else if shares_remaining = 0 then .CLOSED
  else .PARTIAL

/-- `realized_pnl = total_proceeds - (shares_exited * purchase_price)`. -/
def calculate_realized_pnl (txns : List Transaction) (purchase_price : Rat) : Rat :=
  total_proceeds txns - (shares_exited txns : Rat) * purchase_price

/-- `unrealized_pnl = shares_remaining * (current_price - purchase_price) if
shares_remaining > 0 else 0`; per the engine's NULL convention (spec §7 and the
documented "Returns NULL if input missing" contract), a missing current price
with shares still open yields `None` rather than a default zero. -/
def calculate_unrealized_pnl (shares_remaining : Int) (current_price : Option Rat)
    (purchase_price : Rat) : Option Rat :=
  if 0 < shares_remaining then
    current_price.map (fun c => (shares_remaining : Rat) * (c - purchase_price))
  else some 0

/-- `total_pnl = realized_pnl + unrealized_pnl`; unknown when the unrealized
leg is unknown. -/
def calculate_total_pnl (realized : Rat) (unrealized : Option Rat) : Option Rat :=
  unrealized.map (fun u => realized + u)

/-- `STOP3_BUFFER_PCT: float = 0.005  # 0.5%` (config.py default). -/
def STOP3_BUFFER_PCT : Rat := 5 / 1000

/-- `calculate_stops_and_targets` stop-3 branch (calculations_v2.py:43-47):
`if stop_override is not None: stop_3 = stop_override
elif entry_day_low is not None: stop_3 = entry_day_low * (1 - buffer_pct)`. -/
def calculate_stop_3 (stop_override entry_day_low : Option Rat)
    (buffer_pct : Rat) : Option Rat :=
  match stop_override with
  | some m => some m
  | none => entry_day_low.map (fun l => l * (1 - buffer_pct))

/-- `one_r = purchase_price - stop_3` (calculations_v2.py:66); no guard for a
non-positive result. -/
def calculate_one_r (purchase_price : Rat) (stop_3 : Option Rat) : Option Rat :=
  stop_3.map (fun s => purchase_price - s)

/-- `stop_2 = purchase_price - (2/3 * distance_to_stop3)`. -/
def calculate_stop_2 (purchase_price : Rat) (one_r : Option Rat) : Option Rat :=
  one_r.map (fun r => purchase_price - (2 / 3 : Rat) * r)

/-- `stop_1 = purchase_price - (1/3 * distance_to_stop3)`. -/
def calculate_stop_1 (purchase_price : Rat) (one_r : Option Rat) : Option Rat :=
  one_r.map (fun r => purchase_price - (1 / 3 : Rat) * r)

/-- `tp_kr = purchase_price + (k * one_r)` (calculations_v2.py:75-77). -/
def calculate_tp (k purchase_price : Rat) (one_r : Option Rat) : Option Rat :=
  one_r.map (fun r => purchase_price + k * r)

/-- `entry_pct_above_stop3 = ((purchase_price - stop_3) / stop_3) * 100 if
stop_3 else None` (Python truthiness: a zero stop also yields `None`). -/
def calculate_entry_pct_above_stop3 (purchase_price : Rat)
    (stop_3 : Option Rat) : Option Rat :=
  match stop_3 with
  | some s => if s = 0 then none else some ((purchase_price - s) / s * 100)
  | none => none

/-- `day_pct_moved = ((current_price - entry_day_low) / entry_day_low) * 100
if entry_day_low else None` (calculations_v2.py:123); unknown as well when the
current price is missing. -/
def calculate_day_pct_moved (current_price entry_day_low : Option Rat) : Option Rat :=
  match current_price, entry_day_low with
  | some c, some l => if l = 0 then none else some ((c - l) / l * 100)
  | _, _ => none

/-- `cp_pct_diff_from_entry = (current_price - purchase_price) / purchase_price`
(calculations_v2.py:127); unknown when the current price is missing. -/
def calculate_cp_pct_diff_from_entry (current_price : Option Rat)
    (purchase_price : Rat) : Option Rat :=
  current_price.map (fun c => (c - purchase_price) / purchase_price)

/-- `Sold Price: IF(Status="CLOSED", AvgExitPrice, CP)`
(calculations_v2.py:131-134): `if status == "CLOSED" and sold_price:` falls
back to the current price when the average exit price is missing or zero. -/
def calculate_sold_price (status : TradeStatus)
    (avg_exit current_price : Option Rat) : Option Rat :=
  match status, avg_exit with
  | .CLOSED, some a => if a = 0 then current_price else some a
  | _, _ => current_price

/-- `pct_gain_loss_trade = (sold_price - purchase_price) / purchase_price`
(calculations_v2.py:138); unknown when the sold price is unknown. -/
def calculate_pct_gain_loss_trade (sold_price : Option Rat)
    (purchase_price : Rat) : Option Rat :=
  sold_price.map (fun s => (s - purchase_price) / purchase_price)

/-- `pct_portfolio_invested_at_entry = (shares * purchase_price) /
portfolio_size * 100 if portfolio_size else None`. -/
def calculate_pct_portfolio_invested_at_entry (shares : Int)
    (purchase_price : Rat) (portfolio_size : Option Rat) : Option Rat :=
  match portfolio_size with
  | some s => if s = 0 then none
              else some ((shares : Rat) * purchase_price / s * 100)
  | none => none

/-- `pct_portfolio_current = (shares_remaining * current_price) /
portfolio_size * 100 if portfolio_size else None`; unknown as well when the
current price is missing. -/
def calculate_pct_portfolio_current (shares_remaining : Int)
    (current_price portfolio_size : Option Rat) : Option Rat :=
  match portfolio_size, current_price with
  | some s, some c => if s = 0 then none
                      else some ((shares_remaining : Rat) * c / s * 100)
  | _, _ => none

/-- `gain_loss_pct_portfolio_impact` (calculate_portfolio_metrics):
`if pct_gain_loss_trade is None or pct_portfolio_invested_at_entry is None:
return None` then `pct_gain_loss_trade * pct_portfolio_invested_at_entry`. -/
def calculate_gain_loss_pct_portfolio_impact (g p : Option Rat) : Option Rat :=
  match g, p with
  | some g, some p => some (g * p)
  | _, _ => none

/-- `risk_atr_r_units = one_r / atr_at_entry` with
`if one_r is None or atr_at_entry is None or atr_at_entry <= 0: return None`
(calculate_atr_metrics). -/
def calculate_risk_atr_r_units (one_r atr_at_entry : Option Rat) : Option Rat :=
  match one_r, atr_at_entry with
  | some r, some a => if a ≤ 0 then none else some (r / a)
  | _, _ => none

/-- `risk_atr_pct_above_low = ((purchase_price - entry_day_low) / atr_at_entry)
* 100 if atr_at_entry and entry_day_low else None` (Python truthiness guards
both operands against `None` and `0`). -/
def calculate_risk_atr_pct_above_low (purchase_price : Rat)
    (entry_day_low atr_at_entry : Option Rat) : Option Rat :=
  match atr_at_entry, entry_day_low with
  | some a, some l => if a = 0 ∨ l = 0 then none
                      else some ((purchase_price - l) / a * 100)
  | _, _ => none

/-- `atr_pct_multiple_from_ma_at_entry = ((PP - SMAEntry)/SMAEntry) /
(AtrEntry/PP)` (calculations_v2.py:212-222); division by zero anywhere
yields unknown. -/
def calculate_atr_pct_multiple_from_ma_at_entry (purchase_price : Rat)
    (sma_at_entry atr_at_entry : Option Rat) : Option Rat :=
  match sma_at_entry, atr_at_entry with
  | some s, some a => if s = 0 ∨ a = 0 ∨ purchase_price = 0 then none
                      else some (((purchase_price - s) / s) / (a / purchase_price))
  | _, _ => none

/-- `atr_pct_multiple_from_ma = ((CP - SMA)/SMA) / (ATR/CP)`
(calculations_v2.py:224-234); division by zero anywhere yields unknown. -/
def calculate_atr_pct_multiple_from_ma (current_price sma_50 atr_14 : Option Rat) :
    Option Rat :=
  match current_price, sma_50, atr_14 with
  | some c, some s, some a => if s = 0 ∨ a = 0 ∨ c = 0 then none
                              else some (((c - s) / s) / (a / c))
  | _, _, _ => none

/-- `calculate_r_multiple` (calculations_v2.py): `if one_r is None or one_r <=
0: return None; initial_risk = shares * one_r; r_multiple = total_pnl /
initial_risk`; unknown when the total PnL is unknown. -/
def calculate_r_multiple (total_pnl : Option Rat) (shares : Int)
    (one_r : Option Rat) : Option Rat :=
  match one_r with
  | none => none
  | some r =>
    if r ≤ 0 then none
    else total_pnl.map (fun t => t / ((shares : Rat) * r))

/-- A day number is a weekday when it is not a Saturday or Sunday (day `0` is a
Monday). -/
def isWeekday (d : Nat) : Bool := d % 7 < 5

/-- `calculate_trading_days`: `len(pd.bdate_range(purchase_date, today))`, the
count of business days in the closed interval from purchase date to the
reference date (empty when the reference date precedes the purchase date). -/
def calculate_trading_days (purchase_date today : Nat) : Nat :=
  ((List.range (today + 1 - purchase_date)).map (fun i => purchase_date + i)).countP
    (fun d => isWeekday d)

/-- A `trades` row restricted to the input fields the engine reads: user
inputs, the refreshable current-market fields, and the write-once entry
snapshot. -/
structure Trade where
  purchase_price : Rat
  shares : Int
  purchase_date : Nat
  entry_day_low : Option Rat
  stop_override : Option Rat
  portfolio_size : Option Rat
  current_price : Option Rat
  atr_14 : Option Rat
  sma_50 : Option Rat
  sma_10 : Option Rat
  atr_at_entry : Option Rat
  sma_at_entry : Option Rat
  market_data_updated_at : Option Nat
deriving DecidableEq, Repr

/-- The market snapshot delivered by a refresh: current price and current
indicator values plus the fetch timestamp. -/
structure MarketSnapshot where
  current_price : Option Rat
  atr_14 : Option Rat
  sma_50 : Option Rat
  sma_10 : Option Rat
  fetched_at : Nat
deriving DecidableEq, Repr

/-- Modelled from the spec: the market-data refresh endpoint
(`POST /trades/{id}/refresh`, trades_v2.py) is not under src; per
MIGRATION_TO_V2.md ("Refresh market data (preserves entry snapshot)",
"Entry Snapshot (preserved forever) ... These values NEVER change after trade
creation") it overwrites only the current-market fields and the refresh
timestamp. -/
def refresh_market_data (t : Trade) (m : MarketSnapshot) : Trade :=
  { t with
    current_price := m.current_price
    atr_14 := m.atr_14
    sma_50 := m.sma_50
    sma_10 := m.sma_10
    market_data_updated_at := some m.fetched_at }

/-- The full derived-field set written back by `update_all_calculations`. -/
structure Derived where
  shares_exited : Int
  shares_remaining : Int
  total_proceeds : Rat
  total_fees : Rat
  avg_exit_price : Option Rat
  realized_pnl : Rat
  unrealized_pnl : Option Rat
  total_pnl : Option Rat
  status : TradeStatus
  stop_3 : Option Rat
  one_r : Option Rat
  stop_2 : Option Rat
  stop_1 : Option Rat
  entry_pct_above_stop3 : Option Rat
  tp_1r : Option Rat
  tp_2r : Option Rat
  tp_3r : Option Rat
  day_pct_moved : Option Rat
  cp_pct_diff_from_entry : Option Rat
  sold_price : Option Rat
  pct_gain_loss_trade : Option Rat
  pct_portfolio_invested_at_entry : Option Rat
  pct_portfolio_current : Option Rat
  gain_loss_pct_portfolio_impact : Option Rat
  risk_atr_r_units : Option Rat
  risk_atr_pct_above_low : Option Rat
  atr_pct_multiple_from_ma_at_entry : Option Rat
  atr_pct_multiple_from_ma : Option Rat
  r_multiple : Option Rat
  trading_days_open : Nat
deriving DecidableEq, Repr

/-- `update_all_calculations` (calculations_v2.py): the orchestrator, running
exit-metric rollups, PnL, stop/target levels, price metrics, portfolio
metrics, ATR metrics, R-Multiple, status and trading days in dependency
order.  `today` is the reference date of the trading-days calculation (the
Python code reads the current date) and `buffer_pct` the configured Stop3
buffer (default `STOP3_BUFFER_PCT`). -/
def update_all_calculations (t : Trade) (txns : List Transaction)
    (today : Nat) (buffer_pct : Rat) : Derived :=
  let ex := shares_exited txns
  let rem := t.shares - ex
  let realized := calculate_realized_pnl txns t.purchase_price
  let unrealized := calculate_unrealized_pnl rem t.current_price t.purchase_price
  let totalPnl := calculate_total_pnl realized unrealized
  let status := calculate_status t.shares rem
  let stop3 := calculate_stop_3 t.stop_override t.entry_day_low buffer_pct
  let oneR := calculate_one_r t.purchase_price stop3
  let avgExit := avg_exit_price txns
  let sold := calculate_sold_price status avgExit t.current_price
  let pctTrade := calculate_pct_gain_loss_trade sold t.purchase_price
  let pctEntry := calculate_pct_portfolio_invested_at_entry t.shares
    t.purchase_price t.portfolio_size
  { shares_exited := ex
    shares_remaining := rem
    total_proceeds := total_proceeds txns
    total_fees := total_fees txns
    avg_exit_price := avgExit
    realized_pnl := realized
    unrealized_pnl := unrealized
    total_pnl := totalPnl
    status := status
    stop_3 := stop3
    one_r := oneR
    stop_2 := calculate_stop_2 t.purchase_price oneR
    stop_1 := calculate_stop_1 t.purchase_price oneR
    entry_pct_above_stop3 := calculate_entry_pct_above_stop3 t.purchase_price stop3
    tp_1r := calculate_tp 1 t.purchase_price oneR
    tp_2r := calculate_tp 2 t.purchase_price oneR
    tp_3r := calculate_tp 3 t.purchase_price oneR
    day_pct_moved := calculate_day_pct_moved t.current_price t.entry_day_low
    cp_pct_diff_from_entry := calculate_cp_pct_diff_from_entry t.current_price
      t.purchase_price
    sold_price := sold
    pct_gain_loss_trade := pctTrade
    pct_portfolio_invested_at_entry := pctEntry
    pct_portfolio_current := calculate_pct_portfolio_current rem t.current_price
      t.portfolio_size
    gain_loss_pct_portfolio_impact := calculate_gain_loss_pct_portfolio_impact
      pctTrade pctEntry
    risk_atr_r_units := calculate_risk_atr_r_units oneR t.atr_at_entry
    risk_atr_pct_above_low := calculate_risk_atr_pct_above_low t.purchase_price
      t.entry_day_low t.atr_at_entry
    atr_pct_multiple_from_ma_at_entry := calculate_atr_pct_multiple_from_ma_at_entry
      t.purchase_price t.sma_at_entry t.atr_at_entry
    atr_pct_multiple_from_ma := calculate_atr_pct_multiple_from_ma t.current_price
      t.sma_50 t.atr_14
    r_multiple := calculate_r_multiple totalPnl t.shares oneR
    trading_days_open := calculate_trading_days t.purchase_date today }

/-! ## Concrete instances -/

/-- Scenario A inputs: entry price 100.00, floor 95.00, no override. -/
def tradeA : Trade :=
  { purchase_price := 100, shares := 100, purchase_date := 0,
    entry_day_low := some 95, stop_override := none, portfolio_size := none,
    current_price := none, atr_14 := none, sma_50 := none, sma_10 := none,
    atr_at_entry := none, sma_at_entry := none, market_data_updated_at := none }

/-- A trade with a manual stop override M = 90. -/
def tradeOv : Trade :=
  { tradeA with stop_override := some 90 }

/-- Scenario C ledger entry: 60 shares at 251.08 with a 1.50 fee. -/
def txnC : Transaction :=
  create_transaction { shares := 60, price := 25108 / 100, fees := some (3 / 2) }

/-- An inverted setup: entry price 100.00, manual stop override 110.00, so the
risk unit R = 100 − 110 = −10 is non-positive. -/
def tradeInv : Trade :=
  { tradeA with stop_override := some 110 }

/-- Entry 100.00, day low 100.00, current price 110.00. -/
def tradeD : Trade :=
  { tradeA with
    entry_day_low := some 100
    current_price := some 110 }

/-- Scenario D inputs: entry 100.00, 100 shares, portfolio size 200000,
current price 110.00 (so the trade gain is 10% and the entry allocation 5%). -/
def tradeP : Trade :=
  { tradeA with
    portfolio_size := some 200000
    current_price := some 110 }

/-! ## C1 -/

/-- C1 counterexample: with entry price 100.00, floor 95.00 and no override,
the engine does not output Stop₃ = 95.00 — the configured 0.5% buffer gives
Stop₃ = 95 × (1 − 0.005) = 94.525, so the claimed effective floor F = L (and
the Scenario A ladder built on it) is false on the code. -/
theorem C1_counterexample :
    (update_all_calculations tradeA [] 0 STOP3_BUFFER_PCT).stop_3 ≠ some 95 ∧
    (update_all_calculations tradeA [] 0 STOP3_BUFFER_PCT).stop_3 =
      some (3781 / 40) := by
  constructor
  · simp [update_all_calculations, calculate_stop_3, tradeA, STOP3_BUFFER_PCT]
  · simp [update_all_calculations, calculate_stop_3, tradeA, STOP3_BUFFER_PCT]
    norm_num

/-- C1 (amended): with an override M, Stop₃ = M; with no override and a
present day-low L, Stop₃ = L × (1 − buffer) (default buffer 0.5%); for entry
price 100.00 and floor 95.00 with no override the outputs are Stop₃ = 94.525,
R = 5.475, Stop₂ = 96.35, Stop₁ = 98.175, TP₁ = 105.475, TP₂ = 110.95,
TP₃ = 116.425. -/
theorem C1_stop_ladder (t : Trade) (txns : List Transaction) (today : Nat)
    (b : Rat) :
    (∀ m, t.stop_override = some m →
      (update_all_calculations t txns today b).stop_3 = some m) ∧
    (t.stop_override = none → ∀ l, t.entry_day_low = some l →
      (update_all_calculations t txns today b).stop_3 = some (l * (1 - b))) ∧
    ((update_all_calculations tradeA [] 0 STOP3_BUFFER_PCT).stop_3 =
        some (3781 / 40) ∧
      (update_all_calculations tradeA [] 0 STOP3_BUFFER_PCT).one_r =
        some (219 / 40) ∧
      (update_all_calculations tradeA [] 0 STOP3_BUFFER_PCT).stop_2 =
        some (1927 / 20) ∧
      (update_all_calculations tradeA [] 0 STOP3_BUFFER_PCT).stop_1 =
        some (3927 / 40) ∧
      (update_all_calculations tradeA [] 0 STOP3_BUFFER_PCT).tp_1r =
        some (4219 / 40) ∧
      (update_all_calculations tradeA [] 0 STOP3_BUFFER_PCT).tp_2r =
        some (2219 / 20) ∧
      (update_all_calculations tradeA [] 0 STOP3_BUFFER_PCT).tp_3r =
        some (4657 / 40)) := by
  refine ⟨?_, ?_, ?_⟩
  · intro m hm
    simp [update_all_calculations, calculate_stop_3, hm]
  · intro ho l hl
    simp [update_all_calculations, calculate_stop_3, ho, hl]
  · refine ⟨?_, ?_, ?_, ?_, ?_, ?_, ?_⟩ <;>
      simp [update_all_calculations, calculate_stop_3, calculate_one_r,
        calculate_stop_2, calculate_stop_1, calculate_tp, tradeA,
        STOP3_BUFFER_PCT] <;> norm_num

/-- C1 witness: the override branch at the concrete trade with M = 90. -/
theorem C1_witness :
    (update_all_calculations tradeOv [] 0 STOP3_BUFFER_PCT).stop_3 = some 90 :=
  (C1_stop_ladder tradeOv [] 0 STOP3_BUFFER_PCT).1 90 rfl

/-! ## C2 -/

/-- C2: for a trade with entry quantity Q > 0 and a ledger summing to at most
Q, the rollup gives ExitedShares = Σ quantities, RemainingShares + ExitedShares
= Q, and the computed status is OPEN iff ExitedShares = 0, CLOSED iff
RemainingShares = 0, and PARTIAL exactly otherwise. -/
theorem C2_rollup_status (t : Trade) (txns : List Transaction) (today : Nat)
    (b : Rat) (hQ : 0 < t.shares) (hsum : shares_exited txns ≤ t.shares) :
    (update_all_calculations t txns today b).shares_exited =
      (txns.map (fun tx => tx.shares)).sum ∧
    (update_all_calculations t txns today b).shares_remaining +
      (update_all_calculations t txns today b).shares_exited = t.shares ∧
    ((update_all_calculations t txns today b).status = .OPEN ↔
      (update_all_calculations t txns today b).shares_exited = 0) ∧
    ((update_all_calculations t txns today b).status = .CLOSED ↔
      (update_all_calculations t txns today b).shares_remaining = 0) ∧
    ((update_all_calculations t txns today b).status = .PARTIAL ↔
      ((update_all_calculations t txns today b).shares_exited ≠ 0 ∧
       (update_all_calculations t txns today b).shares_remaining ≠ 0)) := by
  refine ⟨rfl, ?_, ?_, ?_, ?_⟩
  · show t.shares - shares_exited txns + shares_exited txns = t.shares
    omega
  · show calculate_status t.shares (t.shares - shares_exited txns) = .OPEN ↔
      shares_exited txns = 0
    generalize shares_exited txns = ex at hsum ⊢
    unfold calculate_status
    split_ifs with h1 h2 <;> simp only [reduceCtorEq, false_iff, true_iff,
      iff_true, iff_false, not_and, not_not, ne_eq] <;> omega
  · show calculate_status t.shares (t.shares - shares_exited txns) = .CLOSED ↔
      t.shares - shares_exited txns = 0
    generalize shares_exited txns = ex at hsum ⊢
    unfold calculate_status
    split_ifs with h1 h2 <;> simp only [reduceCtorEq, false_iff, true_iff,
      iff_true, iff_false, not_and, not_not, ne_eq] <;> omega
  · show calculate_status t.shares (t.shares - shares_exited txns) = .PARTIAL ↔
      (shares_exited txns ≠ 0 ∧ t.shares - shares_exited txns ≠ 0)
    generalize shares_exited txns = ex at hsum ⊢
    unfold calculate_status
    split_ifs with h1 h2 <;> simp only [reduceCtorEq, false_iff, true_iff,
      iff_true, iff_false, not_and, not_not, ne_eq] <;> omega

/-- C2 witness: Scenario C — entry quantity 200, one exit of 60 shares:
exited 60, remaining 140, and status is PARTIAL. -/
theorem C2_witness :
    (update_all_calculations { tradeA with shares := 200 } [txnC] 0
      STOP3_BUFFER_PCT).shares_exited = (([txnC].map (fun tx => tx.shares)).sum) ∧
    (update_all_calculations { tradeA with shares := 200 } [txnC] 0
        STOP3_BUFFER_PCT).shares_remaining +
      (update_all_calculations { tradeA with shares := 200 } [txnC] 0
        STOP3_BUFFER_PCT).shares_exited = 200 ∧
    ((update_all_calculations { tradeA with shares := 200 } [txnC] 0
        STOP3_BUFFER_PCT).status = .PARTIAL ↔
      ((update_all_calculations { tradeA with shares := 200 } [txnC] 0
          STOP3_BUFFER_PCT).shares_exited ≠ 0 ∧
       (update_all_calculations { tradeA with shares := 200 } [txnC] 0
          STOP3_BUFFER_PCT).shares_remaining ≠ 0)) := by
  have h := C2_rollup_status { tradeA with shares := 200 } [txnC] 0
    STOP3_BUFFER_PCT (by norm_num) (by simp [shares_exited, txnC, create_transaction])
  exact ⟨h.1, h.2.1, h.2.2.2.2⟩

/-! ## C3 -/

/-- C3 counterexample: with entry 100.00 and an effective floor of 110.00 (at
or above entry), the engine stores R = −10 as a known negative value, and
Stop₂ is likewise a computed number — not unknown as the claim requires. -/
theorem C3_counterexample :
    (update_all_calculations tradeInv [] 0 STOP3_BUFFER_PCT).one_r =
      some (-10) ∧
    (update_all_calculations tradeInv [] 0 STOP3_BUFFER_PCT).one_r ≠ none ∧
    (update_all_calculations tradeInv [] 0 STOP3_BUFFER_PCT).stop_2 =
      some (320 / 3) := by
  refine ⟨?_, ?_, ?_⟩ <;>
    simp [update_all_calculations, calculate_stop_3, calculate_one_r,
      calculate_stop_2, tradeInv, tradeA] <;> norm_num

/-- C3 (amended): when the risk unit R = P − Stop₃ is known and ≤ 0, only the
R-Multiple is guarded to unknown; R itself is stored as the non-positive value
and the stop/target ladder is computed numerically from it (Stop₂ = P − (2/3)R,
Stop₁ = P − (1/3)R, TPₖ = P + kR), rather than propagating unknown. -/
theorem C3_degenerate_risk (t : Trade) (txns : List Transaction) (today : Nat)
    (b : Rat) (r : Rat)
    (hr : (update_all_calculations t txns today b).one_r = some r)
    (hneg : r ≤ 0) :
    (update_all_calculations t txns today b).r_multiple = none ∧
    (update_all_calculations t txns today b).stop_2 =
      some (t.purchase_price - (2 / 3 : Rat) * r) ∧
    (update_all_calculations t txns today b).stop_1 =
      some (t.purchase_price - (1 / 3 : Rat) * r) ∧
    (update_all_calculations t txns today b).tp_1r =
      some (t.purchase_price + 1 * r) ∧
    (update_all_calculations t txns today b).tp_2r =
      some (t.purchase_price + 2 * r) ∧
    (update_all_calculations t txns today b).tp_3r =
      some (t.purchase_price + 3 * r) := by
  have hr' : calculate_one_r t.purchase_price
      (calculate_stop_3 t.stop_override t.entry_day_low b) = some r := hr
  refine ⟨?_, ?_, ?_, ?_, ?_, ?_⟩ <;>
    simp only [update_all_calculations, calculate_r_multiple, calculate_stop_2,
      calculate_stop_1, calculate_tp, hr', Option.map_some', hneg, if_pos]

/-- C3 witness: the amended behavior at the concrete inverted trade
(R = −10). -/
theorem C3_witness :
    (update_all_calculations tradeInv [] 0 STOP3_BUFFER_PCT).r_multiple =
      none ∧
    (update_all_calculations tradeInv [] 0 STOP3_BUFFER_PCT).stop_2 =
      some (100 - (2 / 3 : Rat) * (-10)) := by
  have h := C3_degenerate_risk tradeInv [] 0 STOP3_BUFFER_PCT (-10)
    (by simp [update_all_calculations, calculate_stop_3, calculate_one_r,
      tradeInv, tradeA]; norm_num) (by norm_num)
  exact ⟨h.1, h.2.1⟩

/-! ## C4 -/

/-- C4: a market-data refresh overwrites only the current-market fields and
the last-refreshed timestamp; the entry-snapshot fields (ATR at entry, SMA at
entry) and every trade input are left untouched. -/
theorem C4_refresh_preserves_entry_snapshot (t : Trade) (m : MarketSnapshot) :
    (refresh_market_data t m).atr_at_entry = t.atr_at_entry ∧
    (refresh_market_data t m).sma_at_entry = t.sma_at_entry ∧
    (refresh_market_data t m).purchase_price = t.purchase_price ∧
    (refresh_market_data t m).shares = t.shares ∧
    (refresh_market_data t m).purchase_date = t.purchase_date ∧
    (refresh_market_data t m).entry_day_low = t.entry_day_low ∧
    (refresh_market_data t m).stop_override = t.stop_override ∧
    (refresh_market_data t m).portfolio_size = t.portfolio_size ∧
    (refresh_market_data t m).current_price = m.current_price ∧
    (refresh_market_data t m).atr_14 = m.atr_14 ∧
    (refresh_market_data t m).sma_50 = m.sma_50 ∧
    (refresh_market_data t m).sma_10 = m.sma_10 ∧
    (refresh_market_data t m).market_data_updated_at = some m.fetched_at :=
  ⟨rfl, rfl, rfl, rfl, rfl, rfl, rfl, rfl, rfl, rfl, rfl, rfl, rfl⟩

/-! ## C5 -/

/-- C5 counterexample: the orchestrator is not independent of the reference
date ("today"): on the same trade, ledger and market data, invoking it with
reference day 0 and with reference day 1 yields different derived-field sets
(trading_days_open is 1 and then 2), so re-running it on unchanged persisted
inputs at a later clock date is not byte-identical. -/
theorem C5_counterexample :
    update_all_calculations tradeA [] 0 STOP3_BUFFER_PCT ≠
      update_all_calculations tradeA [] 1 STOP3_BUFFER_PCT := by
  intro h
  have h' := congrArg Derived.trading_days_open h
  simp only [update_all_calculations] at h'
  revert h'
  decide

/-- C5 (amended): the orchestrator is a pure function of its explicit inputs
together with the trading-days reference date: with the reference date fixed,
two invocations on identical inputs agree exactly, and any two invocations
that differ only in the reference date agree on every derived field except
trading_days_open, which equals the business-day count from the purchase date
to the respective reference date. -/
theorem C5_determinism (t : Trade) (txns : List Transaction) (b : Rat)
    (today₁ today₂ : Nat) :
    update_all_calculations t txns today₁ b =
      update_all_calculations t txns today₁ b ∧
    (update_all_calculations t txns today₁ b).trading_days_open =
      calculate_trading_days t.purchase_date today₁ ∧
    (update_all_calculations t txns today₁ b).shares_exited =
      (update_all_calculations t txns today₂ b).shares_exited ∧
    (update_all_calculations t txns today₁ b).shares_remaining =
      (update_all_calculations t txns today₂ b).shares_remaining ∧
    (update_all_calculations t txns today₁ b).total_proceeds =
      (update_all_calculations t txns today₂ b).total_proceeds ∧
    (update_all_calculations t txns today₁ b).total_fees =
      (update_all_calculations t txns today₂ b).total_fees ∧
    (update_all_calculations t txns today₁ b).avg_exit_price =
      (update_all_calculations t txns today₂ b).avg_exit_price ∧
    (update_all_calculations t txns today₁ b).realized_pnl =
      (update_all_calculations t txns today₂ b).realized_pnl ∧
    (update_all_calculations t txns today₁ b).unrealized_pnl =
      (update_all_calculations t txns today₂ b).unrealized_pnl ∧
    (update_all_calculations t txns today₁ b).total_pnl =
      (update_all_calculations t txns today₂ b).total_pnl ∧
    (update_all_calculations t txns today₁ b).status =
      (update_all_calculations t txns today₂ b).status ∧
    (update_all_calculations t txns today₁ b).stop_3 =
      (update_all_calculations t txns today₂ b).stop_3 ∧
    (update_all_calculations t txns today₁ b).one_r =
      (update_all_calculations t txns today₂ b).one_r ∧
    (update_all_calculations t txns today₁ b).stop_2 =
      (update_all_calculations t txns today₂ b).stop_2 ∧
    (update_all_calculations t txns today₁ b).stop_1 =
      (update_all_calculations t txns today₂ b).stop_1 ∧
    (update_all_calculations t txns today₁ b).entry_pct_above_stop3 =
      (update_all_calculations t txns today₂ b).entry_pct_above_stop3 ∧
    (update_all_calculations t txns today₁ b).tp_1r =
      (update_all_calculations t txns today₂ b).tp_1r ∧
    (update_all_calculations t txns today₁ b).tp_2r =
      (update_all_calculations t txns today₂ b).tp_2r ∧
    (update_all_calculations t txns today₁ b).tp_3r =
      (update_all_calculations t txns today₂ b).tp_3r ∧
    (update_all_calculations t txns today₁ b).day_pct_moved =
      (update_all_calculations t txns today₂ b).day_pct_moved ∧
    (update_all_calculations t txns today₁ b).cp_pct_diff_from_entry =
      (update_all_calculations t txns today₂ b).cp_pct_diff_from_entry ∧
    (update_all_calculations t txns today₁ b).sold_price =
      (update_all_calculations t txns today₂ b).sold_price ∧
    (update_all_calculations t txns today₁ b).pct_gain_loss_trade =
      (update_all_calculations t txns today₂ b).pct_gain_loss_trade ∧
    (update_all_calculations t txns today₁ b).pct_portfolio_invested_at_entry =
      (update_all_calculations t txns today₂ b).pct_portfolio_invested_at_entry ∧
    (update_all_calculations t txns today₁ b).pct_portfolio_current =
      (update_all_calculations t txns today₂ b).pct_portfolio_current ∧
    (update_all_calculations t txns today₁ b).gain_loss_pct_portfolio_impact =
      (update_all_calculations t txns today₂ b).gain_loss_pct_portfolio_impact ∧
    (update_all_calculations t txns today₁ b).risk_atr_r_units =
      (update_all_calculations t txns today₂ b).risk_atr_r_units ∧
    (update_all_calculations t txns today₁ b).risk_atr_pct_above_low =
      (update_all_calculations t txns today₂ b).risk_atr_pct_above_low ∧
    (update_all_calculations t txns today₁ b).atr_pct_multiple_from_ma_at_entry =
      (update_all_calculations t txns today₂ b).atr_pct_multiple_from_ma_at_entry ∧
    (update_all_calculations t txns today₁ b).atr_pct_multiple_from_ma =
      (update_all_calculations t txns today₂ b).atr_pct_multiple_from_ma ∧
    (update_all_calculations t txns today₁ b).r_multiple =
      (update_all_calculations t txns today₂ b).r_multiple :=
  ⟨rfl, rfl, rfl, rfl, rfl, rfl, rfl, rfl, rfl, rfl, rfl, rfl, rfl, rfl, rfl,
   rfl, rfl, rfl, rfl, rfl, rfl, rfl, rfl, rfl, rfl, rfl, rfl, rfl, rfl, rfl,
   rfl⟩

/-! ## C6 -/

/-- C6: UnrealizedPnL = RemainingShares × (CurrentPrice − EntryPrice) when
shares remain and the current price is known; zero when no shares remain;
unknown (not zero) when shares remain but the current price is unknown; and
TotalPnL = RealizedPnL + UnrealizedPnL whenever the latter is known. -/
theorem C6_unrealized_pnl (t : Trade) (txns : List Transaction) (today : Nat)
    (b : Rat) :
    ((update_all_calculations t txns today b).shares_remaining = 0 →
      (update_all_calculations t txns today b).unrealized_pnl = some 0) ∧
    (∀ c, 0 < (update_all_calculations t txns today b).shares_remaining →
      t.current_price = some c →
      (update_all_calculations t txns today b).unrealized_pnl =
        some (((update_all_calculations t txns today b).shares_remaining : Rat) *
          (c - t.purchase_price))) ∧
    (0 < (update_all_calculations t txns today b).shares_remaining →
      t.current_price = none →
      (update_all_calculations t txns today b).unrealized_pnl = none) ∧
    (∀ u, (update_all_calculations t txns today b).unrealized_pnl = some u →
      (update_all_calculations t txns today b).total_pnl =
        some ((update_all_calculations t txns today b).realized_pnl + u)) := by
  refine ⟨?_, ?_, ?_, ?_⟩
  · intro h0
    show calculate_unrealized_pnl (t.shares - shares_exited txns)
      t.current_price t.purchase_price = some 0
    have h0' : t.shares - shares_exited txns = 0 := h0
    rw [h0']
    simp [calculate_unrealized_pnl]
  · intro c hpos hc
    show calculate_unrealized_pnl (t.shares - shares_exited txns)
      t.current_price t.purchase_price = some _
    have hpos' : 0 < t.shares - shares_exited txns := hpos
    unfold calculate_unrealized_pnl
    rw [if_pos hpos', hc]
    rfl
  · intro hpos hc
    show calculate_unrealized_pnl (t.shares - shares_exited txns)
      t.current_price t.purchase_price = none
    have hpos' : 0 < t.shares - shares_exited txns := hpos
    unfold calculate_unrealized_pnl
    rw [if_pos hpos', hc]
    rfl
  · intro u hu
    show calculate_total_pnl (calculate_realized_pnl txns t.purchase_price)
      (calculate_unrealized_pnl (t.shares - shares_exited txns)
        t.current_price t.purchase_price) = some _
    have hu' : calculate_unrealized_pnl (t.shares - shares_exited txns)
      t.current_price t.purchase_price = some u := hu
    rw [calculate_total_pnl, hu']
    rfl

/-- C6 witness: entry 100, quantity 200, one 60-share exit, current price
260: 140 shares remain and UnrealizedPnL = 140 × (260 − 100) = 22400. -/
theorem C6_witness :
    (update_all_calculations { tradeA with
        shares := 200
        current_price := some 260 } [txnC] 0 STOP3_BUFFER_PCT).unrealized_pnl =
      some ((140 : Rat) * (260 - 100)) := by
  have h := (C6_unrealized_pnl { tradeA with
    shares := 200
    current_price := some 260 } [txnC] 0 STOP3_BUFFER_PCT).2.1 260
    (by simp [update_all_calculations, shares_exited, txnC, create_transaction,
      tradeA]) rfl
  rw [h]
  norm_num [update_all_calculations, shares_exited, txnC, create_transaction,
    tradeA]

/-! ## C7 -/

/-- Positivity of a sum of positive rationals over a nonempty list. -/
theorem list_sum_pos_of_mem_pos (l : List Rat) (h : ∀ x ∈ l, 0 < x)
    (hne : l ≠ []) : 0 < l.sum := by
  induction l with
  | nil => exact absurd rfl hne
  | cons x xs ih =>
    rw [List.sum_cons]
    rcases List.eq_nil_or_concat xs with h0 | _
    · subst h0
      simpa using h x (by simp)
    · have hx : 0 < x := h x (by simp)
      have hxs : 0 ≤ xs.sum := by
        by_cases hn : xs = []
        · subst hn; simp
        · exact le_of_lt (ih (fun y hy => h y (by simp [hy])) hn)
      linarith

/-- Sold-price helper: when the status is not CLOSED the sold price is the
current price, whatever the average exit price is. -/
theorem sold_price_of_ne_closed (st : TradeStatus) (avg cp : Option Rat)
    (h : st ≠ .CLOSED) : calculate_sold_price st avg cp = cp := by
  cases st <;> cases avg <;> simp [calculate_sold_price] at h ⊢

/-- C7: the trade gain/loss percentage is (SoldPrice − P) / P where SoldPrice
is the (positive) average exit price when the position is fully closed and
the current price otherwise, and both are unknown when the average exit price
and the current price are absent. -/
theorem C7_sold_price_gain_loss (t : Trade) (txns : List Transaction)
    (today : Nat) (b : Rat) (hQ : 0 < t.shares)
    (hpos : ∀ tx ∈ txns, 0 < tx.shares ∧ 0 < tx.price) :
    ((update_all_calculations t txns today b).status = .CLOSED →
      ∃ a, (update_all_calculations t txns today b).avg_exit_price = some a ∧
        0 < a ∧
        (update_all_calculations t txns today b).sold_price = some a ∧
        (update_all_calculations t txns today b).pct_gain_loss_trade =
          some ((a - t.purchase_price) / t.purchase_price)) ∧
    ((update_all_calculations t txns today b).status ≠ .CLOSED →
      (update_all_calculations t txns today b).sold_price = t.current_price) ∧
    ((update_all_calculations t txns today b).avg_exit_price = none →
      t.current_price = none →
      (update_all_calculations t txns today b).sold_price = none ∧
      (update_all_calculations t txns today b).pct_gain_loss_trade = none) := by
  refine ⟨?_, ?_, ?_⟩
  · intro hclosed
    have hcl : calculate_status t.shares (t.shares - shares_exited txns) =
      .CLOSED := hclosed
    have hrem : t.shares - shares_exited txns = 0 := by
      unfold calculate_status at hcl
      by_cases h1 : t.shares - shares_exited txns = t.shares
      · rw [if_pos h1] at hcl; exact absurd hcl (by simp)
      · by_cases h2 : t.shares - shares_exited txns = 0
        · exact h2
        · rw [if_neg h1, if_neg h2] at hcl; exact absurd hcl (by simp)
    have hex : 0 < shares_exited txns := by omega
    have hne : txns ≠ [] := by
      intro he
      rw [he] at hex
      simp [shares_exited] at hex
    have hSpos : 0 < (txns.map (fun tx => (tx.shares : Rat) * tx.price)).sum := by
      apply list_sum_pos_of_mem_pos
      · intro x hx
        rcases List.mem_map.mp hx with ⟨tx, htx, rfl⟩
        have := hpos tx htx
        have h1 : (0 : Rat) < (tx.shares : Rat) := by exact_mod_cast this.1
        exact mul_pos h1 this.2
      · simpa using hne
    have havg : avg_exit_price txns =
        some ((txns.map (fun tx => (tx.shares : Rat) * tx.price)).sum /
          (shares_exited txns : Rat)) := by
      unfold avg_exit_price
      rw [if_pos hex]
    have hexQ : (0 : Rat) < (shares_exited txns : Rat) := by exact_mod_cast hex
    have ha : 0 < (txns.map (fun tx => (tx.shares : Rat) * tx.price)).sum /
        (shares_exited txns : Rat) := div_pos hSpos hexQ
    refine ⟨_, havg, ha, ?_, ?_⟩
    · show calculate_sold_price
        (calculate_status t.shares (t.shares - shares_exited txns))
        (avg_exit_price txns) t.current_price = _
      rw [hcl, havg]
      simp [calculate_sold_price, ne_of_gt ha]
    · show calculate_pct_gain_loss_trade
        (calculate_sold_price
          (calculate_status t.shares (t.shares - shares_exited txns))
          (avg_exit_price txns) t.current_price) t.purchase_price = _
      rw [hcl, havg]
      simp [calculate_sold_price, ne_of_gt ha, calculate_pct_gain_loss_trade]
  · intro hnc
    show calculate_sold_price
      (calculate_status t.shares (t.shares - shares_exited txns))
      (avg_exit_price txns) t.current_price = t.current_price
    exact sold_price_of_ne_closed _ _ _ hnc
  · intro havg hcp
    have havg' : avg_exit_price txns = none := havg
    have hsold : calculate_sold_price
        (calculate_status t.shares (t.shares - shares_exited txns))
        (avg_exit_price txns) t.current_price = none := by
      rw [havg', hcp]
      cases calculate_status t.shares (t.shares - shares_exited txns) <;>
        simp [calculate_sold_price]
    refine ⟨hsold, ?_⟩
    show calculate_pct_gain_loss_trade
      (calculate_sold_price
        (calculate_status t.shares (t.shares - shares_exited txns))
        (avg_exit_price txns) t.current_price) t.purchase_price = none
    rw [hsold]
    rfl

/-- C7 witness: a fully-closed trade — quantity 60, one exit of 60 shares at
251.08 — has SoldPrice = AvgExitPrice = 251.08 and trade gain/loss
(251.08 − 100) / 100. -/
theorem C7_witness :
    (update_all_calculations { tradeA with shares := 60 } [txnC] 0
        STOP3_BUFFER_PCT).sold_price = some (25108 / 100) ∧
    (update_all_calculations { tradeA with shares := 60 } [txnC] 0
        STOP3_BUFFER_PCT).pct_gain_loss_trade =
      some (((25108 / 100 : Rat) - 100) / 100) := by
  have h := (C7_sold_price_gain_loss { tradeA with shares := 60 } [txnC] 0
    STOP3_BUFFER_PCT (by norm_num)
    (by intro tx htx
        simp [txnC, create_transaction] at htx
        subst htx
        constructor <;> norm_num)).1
    (by simp [update_all_calculations, calculate_status, shares_exited, txnC,
      create_transaction, tradeA])
  rcases h with ⟨a, havg, hapos, hsold, hpct⟩
  have hval : avg_exit_price [txnC] = some ((25108 : Rat) / 100) := by
    norm_num [avg_exit_price, shares_exited, txnC, create_transaction]
  have ha : a = (25108 : Rat) / 100 := by
    have h2 : some a = some ((25108 : Rat) / 100) := by
      rw [← havg, ← hval]
      rfl
    exact Option.some.inj h2
  subst ha
  exact ⟨hsold, hpct⟩

/-! ## C8 -/

/-- C8 counterexample: with current price 110.00 and day low 100.00 the engine
outputs Day-%-moved = 10 (a 0–100 percent scale), not (C − L) / L = 0.1 as the
claim's stated scale requires. -/
theorem C8_counterexample :
    (update_all_calculations tradeD [] 0 STOP3_BUFFER_PCT).day_pct_moved =
      some 10 ∧
    (update_all_calculations tradeD [] 0 STOP3_BUFFER_PCT).day_pct_moved ≠
      some ((110 - 100) / 100 : Rat) := by
  constructor
  · show calculate_day_pct_moved tradeD.current_price tradeD.entry_day_low =
      some 10
    norm_num [calculate_day_pct_moved, tradeD, tradeA]
  · show calculate_day_pct_moved tradeD.current_price tradeD.entry_day_low ≠
      some ((110 - 100) / 100 : Rat)
    norm_num [calculate_day_pct_moved, tradeD, tradeA]

/-- C8 (amended): Day-%-moved = (C − L) / L × 100 (a 0–100 percent scale),
unknown when the day low is absent (or zero); the current-vs-entry percentage
is (C − P) / P exactly as stated, unknown when the current price is absent. -/
theorem C8_price_metrics (t : Trade) (txns : List Transaction) (today : Nat)
    (b : Rat) :
    (∀ c l, t.current_price = some c → t.entry_day_low = some l → l ≠ 0 →
      (update_all_calculations t txns today b).day_pct_moved =
        some ((c - l) / l * 100)) ∧
    (t.entry_day_low = none →
      (update_all_calculations t txns today b).day_pct_moved = none) ∧
    (∀ c, t.current_price = some c →
      (update_all_calculations t txns today b).cp_pct_diff_from_entry =
        some ((c - t.purchase_price) / t.purchase_price)) ∧
    (t.current_price = none →
      (update_all_calculations t txns today b).cp_pct_diff_from_entry =
        none) := by
  refine ⟨?_, ?_, ?_, ?_⟩
  · intro c l hc hl hl0
    show calculate_day_pct_moved t.current_price t.entry_day_low = _
    rw [hc, hl]
    simp [calculate_day_pct_moved, hl0]
  · intro hl
    show calculate_day_pct_moved t.current_price t.entry_day_low = none
    rw [hl]
    cases t.current_price <;> rfl
  · intro c hc
    show calculate_cp_pct_diff_from_entry t.current_price t.purchase_price = _
    rw [hc]
    rfl
  · intro hc
    show calculate_cp_pct_diff_from_entry t.current_price t.purchase_price =
      none
    rw [hc]
    rfl

/-- C8 witness: current 110, low 100 — Day-%-moved = (110 − 100)/100 × 100 and
current-vs-entry = (110 − 100)/100. -/
theorem C8_witness :
    (update_all_calculations tradeD [] 0 STOP3_BUFFER_PCT).day_pct_moved =
      some (((110 : Rat) - 100) / 100 * 100) ∧
    (update_all_calculations tradeD [] 0 STOP3_BUFFER_PCT).cp_pct_diff_from_entry =
      some (((110 : Rat) - 100) / 100) := by
  have h := C8_price_metrics tradeD [] 0 STOP3_BUFFER_PCT
  exact ⟨h.1 110 100 rfl rfl (by norm_num), h.2.2.1 110 rfl⟩

/-! ## C9 -/

/-- C9: Portfolio-impact = G × %Portfolio-at-entry with strict AND
propagation (unknown iff either operand is unknown); and with the
portfolio-size snapshot absent, exactly %Portfolio-at-entry,
%Portfolio-current and Portfolio-impact are unknown while every other derived
field coincides with its value under any present snapshot. -/
theorem C9_portfolio_impact (t : Trade) (txns : List Transaction)
    (today : Nat) (b : Rat) (s : Rat) :
    ((update_all_calculations t txns today b).gain_loss_pct_portfolio_impact =
        none ↔
      ((update_all_calculations t txns today b).pct_gain_loss_trade = none ∨
       (update_all_calculations t txns today b).pct_portfolio_invested_at_entry =
         none)) ∧
    (∀ g q, (update_all_calculations t txns today b).pct_gain_loss_trade =
        some g →
      (update_all_calculations t txns today b).pct_portfolio_invested_at_entry =
        some q →
      (update_all_calculations t txns today b).gain_loss_pct_portfolio_impact =
        some (g * q)) ∧
    (update_all_calculations { t with portfolio_size := none } txns today
      b).pct_portfolio_invested_at_entry = none ∧
    (update_all_calculations { t with portfolio_size := none } txns today
      b).pct_portfolio_current = none ∧
    (update_all_calculations { t with portfolio_size := none } txns today
      b).gain_loss_pct_portfolio_impact = none ∧
    (update_all_calculations { t with portfolio_size := none } txns today
        b).shares_exited =
      (update_all_calculations { t with portfolio_size := some s } txns today
        b).shares_exited ∧
    (update_all_calculations { t with portfolio_size := none } txns today
        b).shares_remaining =
      (update_all_calculations { t with portfolio_size := some s } txns today
        b).shares_remaining ∧
    (update_all_calculations { t with portfolio_size := none } txns today
        b).total_proceeds =
      (update_all_calculations { t with portfolio_size := some s } txns today
        b).total_proceeds ∧
    (update_all_calculations { t with portfolio_size := none } txns today
        b).total_fees =
      (update_all_calculations { t with portfolio_size := some s } txns today
        b).total_fees ∧
    (update_all_calculations { t with portfolio_size := none } txns today
        b).avg_exit_price =
      (update_all_calculations { t with portfolio_size := some s } txns today
        b).avg_exit_price ∧
    (update_all_calculations { t with portfolio_size := none } txns today
        b).realized_pnl =
      (update_all_calculations { t with portfolio_size := some s } txns today
        b).realized_pnl ∧
    (update_all_calculations { t with portfolio_size := none } txns today
        b).unrealized_pnl =
      (update_all_calculations { t with portfolio_size := some s } txns today
        b).unrealized_pnl ∧
    (update_all_calculations { t with portfolio_size := none } txns today
        b).total_pnl =
      (update_all_calculations { t with portfolio_size := some s } txns today
        b).total_pnl ∧
    (update_all_calculations { t with portfolio_size := none } txns today
        b).status =
      (update_all_calculations { t with portfolio_size := some s } txns today
        b).status ∧
    (update_all_calculations { t with portfolio_size := none } txns today
        b).stop_3 =
      (update_all_calculations { t with portfolio_size := some s } txns today
        b).stop_3 ∧
    (update_all_calculations { t with portfolio_size := none } txns today
        b).one_r =
      (update_all_calculations { t with portfolio_size := some s } txns today
        b).one_r ∧
    (update_all_calculations { t with portfolio_size := none } txns today
        b).stop_2 =
      (update_all_calculations { t with portfolio_size := some s } txns today
        b).stop_2 ∧
    (update_all_calculations { t with portfolio_size := none } txns today
        b).stop_1 =
      (update_all_calculations { t with portfolio_size := some s } txns today
        b).stop_1 ∧
    (update_all_calculations { t with portfolio_size := none } txns today
        b).entry_pct_above_stop3 =
      (update_all_calculations { t with portfolio_size := some s } txns today
        b).entry_pct_above_stop3 ∧
    (update_all_calculations { t with portfolio_size := none } txns today
        b).tp_1r =
      (update_all_calculations { t with portfolio_size := some s } txns today
        b).tp_1r ∧
    (update_all_calculations { t with portfolio_size := none } txns today
        b).tp_2r =
      (update_all_calculations { t with portfolio_size := some s } txns today
        b).tp_2r ∧
    (update_all_calculations { t with portfolio_size := none } txns today
        b).tp_3r =
      (update_all_calculations { t with portfolio_size := some s } txns today
        b).tp_3r ∧
    (update_all_calculations { t with portfolio_size := none } txns today
        b).day_pct_moved =
      (update_all_calculations { t with portfolio_size := some s } txns today
        b).day_pct_moved ∧
    (update_all_calculations { t with portfolio_size := none } txns today
        b).cp_pct_diff_from_entry =
      (update_all_calculations { t with portfolio_size := some s } txns today
        b).cp_pct_diff_from_entry ∧
    (update_all_calculations { t with portfolio_size := none } txns today
        b).sold_price =
      (update_all_calculations { t with portfolio_size := some s } txns today
        b).sold_price ∧
    (update_all_calculations { t with portfolio_size := none } txns today
        b).pct_gain_loss_trade =
      (update_all_calculations { t with portfolio_size := some s } txns today
        b).pct_gain_loss_trade ∧
    (update_all_calculations { t with portfolio_size := none } txns today
        b).risk_atr_r_units =
      (update_all_calculations { t with portfolio_size := some s } txns today
        b).risk_atr_r_units ∧
    (update_all_calculations { t with portfolio_size := none } txns today
        b).risk_atr_pct_above_low =
      (update_all_calculations { t with portfolio_size := some s } txns today
        b).risk_atr_pct_above_low ∧
    (update_all_calculations { t with portfolio_size := none } txns today
        b).atr_pct_multiple_from_ma_at_entry =
      (update_all_calculations { t with portfolio_size := some s } txns today
        b).atr_pct_multiple_from_ma_at_entry ∧
    (update_all_calculations { t with portfolio_size := none } txns today
        b).atr_pct_multiple_from_ma =
      (update_all_calculations { t with portfolio_size := some s } txns today
        b).atr_pct_multiple_from_ma ∧
    (update_all_calculations { t with portfolio_size := none } txns today
        b).r_multiple =
      (update_all_calculations { t with portfolio_size := some s } txns today
        b).r_multiple ∧
    (update_all_calculations { t with portfolio_size := none } txns today
        b).trading_days_open =
      (update_all_calculations { t with portfolio_size := some s } txns today
        b).trading_days_open := by
  have key : ∀ g p : Option Rat,
      calculate_gain_loss_pct_portfolio_impact g p = none ↔
        (g = none ∨ p = none) := by
    intro g p
    cases g <;> cases p <;> simp [calculate_gain_loss_pct_portfolio_impact]
  refine ⟨?_, ?_, ?_, ?_, ?_, ?_⟩
  · exact key
      (calculate_pct_gain_loss_trade
        (calculate_sold_price
          (calculate_status t.shares (t.shares - shares_exited txns))
          (avg_exit_price txns) t.current_price) t.purchase_price)
      (calculate_pct_portfolio_invested_at_entry t.shares t.purchase_price
        t.portfolio_size)
  · intro g q hg hq
    have hg' : calculate_pct_gain_loss_trade
        (calculate_sold_price
          (calculate_status t.shares (t.shares - shares_exited txns))
          (avg_exit_price txns) t.current_price) t.purchase_price = some g := hg
    have hq' : calculate_pct_portfolio_invested_at_entry t.shares
        t.purchase_price t.portfolio_size = some q := hq
    show calculate_gain_loss_pct_portfolio_impact _ _ = some (g * q)
    rw [hg', hq']
    rfl
  · rfl
  · show calculate_pct_portfolio_current (t.shares - shares_exited txns)
      t.current_price none = none
    cases t.current_price <;> rfl
  · show calculate_gain_loss_pct_portfolio_impact
      (calculate_pct_gain_loss_trade
        (calculate_sold_price
          (calculate_status t.shares (t.shares - shares_exited txns))
          (avg_exit_price txns) t.current_price) t.purchase_price)
      (calculate_pct_portfolio_invested_at_entry t.shares t.purchase_price
        none) = none
    cases calculate_pct_gain_loss_trade
        (calculate_sold_price
          (calculate_status t.shares (t.shares - shares_exited txns))
          (avg_exit_price txns) t.current_price) t.purchase_price <;> rfl
  · exact ⟨rfl, rfl, rfl, rfl, rfl, rfl, rfl, rfl, rfl, rfl, rfl, rfl, rfl,
      rfl, rfl, rfl, rfl, rfl, rfl, rfl, rfl, rfl, rfl, rfl, rfl, rfl, rfl⟩

/-- C9 witness: Scenario D — trade gain 10% (0.10) and entry allocation 5%
(5.0 on the 0–100 scale) give Portfolio-impact 0.10 × 5.0 = 0.5. -/
theorem C9_witness :
    (update_all_calculations tradeP [] 0
        STOP3_BUFFER_PCT).gain_loss_pct_portfolio_impact =
      some ((1 / 10 : Rat) * 5) := by
  have h := (C9_portfolio_impact tradeP [] 0 STOP3_BUFFER_PCT 1).2.1
    (1 / 10) 5
    (by show calculate_pct_gain_loss_trade
          (calculate_sold_price
            (calculate_status tradeP.shares
              (tradeP.shares - shares_exited []))
            (avg_exit_price []) tradeP.current_price) tradeP.purchase_price =
          some (1 / 10)
        norm_num [calculate_pct_gain_loss_trade, calculate_sold_price,
          calculate_status, avg_exit_price, shares_exited, tradeP, tradeA])
    (by show calculate_pct_portfolio_invested_at_entry tradeP.shares
          tradeP.purchase_price tradeP.portfolio_size = some 5
        norm_num [calculate_pct_portfolio_invested_at_entry, tradeP, tradeA])
  exact h

/-! ## C10 -/

/-- C10: a transaction created without an explicit fee stores fee 0 and
proceeds = quantity × price (and an explicit fee is stored as given); a ledger
of fee-less transactions has TotalFees = 0 and TotalProceeds =
Σ quantity × price — the rollup totals are plain numbers by construction,
never unknown on account of a missing fee. -/
theorem C10_fee_default :
    (∀ (n : Int) (p q : Rat),
      (create_transaction { shares := n, price := p, fees := none }).fees = 0 ∧
      (create_transaction { shares := n, price := p, fees := none }).proceeds =
        (n : Rat) * p ∧
      (create_transaction { shares := n, price := p, fees := some q }).fees =
        q) ∧
    (∀ l : List (Int × Rat),
      total_fees (l.map (fun qp =>
        create_transaction { shares := qp.1, price := qp.2, fees := none })) =
        0 ∧
      total_proceeds (l.map (fun qp =>
        create_transaction { shares := qp.1, price := qp.2, fees := none })) =
        (l.map (fun qp => (qp.1 : Rat) * qp.2)).sum) := by
  constructor
  · intro n p q
    refine ⟨rfl, ?_, ?_⟩
    · show (n : Rat) * p - 0 = (n : Rat) * p
      ring
    · show (if q = 0 then (0 : Rat) else q) = q
      by_cases hq : q = 0
      · rw [if_pos hq, hq]
      · rw [if_neg hq]
  · intro l
    induction l with
    | nil => exact ⟨rfl, rfl⟩
    | cons x xs ih =>
      refine ⟨?_, ?_⟩
      · show total_fees (create_transaction
          { shares := x.1, price := x.2, fees := none } :: xs.map (fun qp =>
            create_transaction
              { shares := qp.1, price := qp.2, fees := none })) = 0
        rw [total_fees, List.map_cons, List.sum_cons]
        have h1 : (create_transaction
          { shares := x.1, price := x.2, fees := none }).fees = 0 := rfl
        rw [h1]
        have h2 := ih.1
        rw [total_fees] at h2
        rw [h2]
        ring
      · show total_proceeds (create_transaction
          { shares := x.1, price := x.2, fees := none } :: xs.map (fun qp =>
            create_transaction
              { shares := qp.1, price := qp.2, fees := none })) = _
        rw [total_proceeds, List.map_cons, List.sum_cons, List.map_cons,
          List.sum_cons]
        have h1 : (create_transaction
            { shares := x.1, price := x.2, fees := none }).proceeds =
          (x.1 : Rat) * x.2 := by
          show (x.1 : Rat) * x.2 - 0 = (x.1 : Rat) * x.2
          ring
        rw [h1]
        have h2 := ih.2
        rw [total_proceeds] at h2
        rw [h2]
